import Mathlib

/-!
Verification of the session/operation orchestration layer of a Flink
SQL-Gateway MCP server (`flink_mcp_server.py`).

The gateway client is an external collaborator; its responses are modelled
as explicit parameters: the response of the initial `execute_statement`
call (an `Except` whose error side models a raised exception), the stream
of raw status payloads observed by the polling loop, and the stream of
result pages returned by `fetch_result`.  Wall-clock deadlines are
modelled as an iteration budget (fuel): `0` remaining fuel corresponds to
an elapsed deadline.  Gateway calls whose results the code discards
(polling the STOP operation, `close_operation`, the diagnostic
`errorPage0` fetch) do not affect any returned value and are not modelled.
-/

namespace FlinkMcp

/-- ASCII upper-casing of one character, a kernel-reducible embedding of
the effect of Python `str.upper()` on the ASCII payloads this code
compares. -/
def upperChar (c : Char) : Char :=
  if 97 ≤ c.toNat ∧ c.toNat ≤ 122 then Char.ofNat (c.toNat - 32) else c

/-- ASCII upper-casing of a string (embedding of `str.upper()`). -/
def toUpperStr (s : String) : String :=
  ⟨s.data.map upperChar⟩

/-- ASCII lower-casing of one character (embedding of `str.lower()`). -/
def lowerChar (c : Char) : Char :=
  if 65 ≤ c.toNat ∧ c.toNat ≤ 90 then Char.ofNat (c.toNat + 32) else c

/-- ASCII lower-casing of a string (embedding of `str.lower()`). -/
def toLowerStr (s : String) : String :=
  ⟨s.data.map lowerChar⟩

/-- ASCII whitespace test (embedding of the characters `str.strip()`
removes). -/
def isSpaceChar (c : Char) : Bool :=
  c = ' ' || c = '\t' || c = '\n' || c = '\r' || c = '\x0b' || c = '\x0c'

/-- Strips ASCII whitespace from both ends (embedding of
`str.strip()`). -/
def trimStr (s : String) : String :=
  ⟨((s.data.dropWhile isSpaceChar).reverse.dropWhile isSpaceChar).reverse⟩

/-- Model of one result page as consumed by the server code: the raw
`resultType` field (possibly absent), the two job-identifier fields
`jobID` / `jobId` (absent or a string), and the length of
`results.data`. -/
structure Page where
  resultType : Option String
  jobID : Option String
  jobId : Option String
  dataLen : Nat
deriving Repr, DecidableEq

/-- Embedding of `str(page.get("resultType") or "").upper()`: an absent or
empty field normalises to the empty string before upper-casing. -/
def rtypeOf (p : Page) : String :=
  toUpperStr
    (match p.resultType with
     | some s => s
     | none => "")

/-- Embedding of `_extract_job_id`: `page.get("jobID") or page.get("jobId")`,
where a falsy (absent or empty) `jobID` falls through to `jobId`. -/
def extract_job_id (p : Page) : Option String :=
  match p.jobID with
  | some s => if s = "" then p.jobId else some s
  | none => p.jobId

/-- Python truthiness of an optional job-identifier string: truthy iff
present and non-empty (used by `if jid:` and `if jid or ...`). -/
def jidTruthy : Option String → Bool
  | none => false
  | some s => s != ""

/-- Model of one raw operation-status payload: the optional `status` field
and an abstract remainder (`extra`) distinguishing otherwise equal
payloads. -/
structure StatusPayload where
  status : Option String
  extra : Nat
deriving Repr, DecidableEq

/-- Embedding of `str(last_payload.get("status", "")).upper()`. -/
def statusStr (p : StatusPayload) : String :=
  toUpperStr
    (match p.status with
     | some s => s
     | none => "")

/-- Membership test against the terminal-state set
`\x7b"FINISHED", "ERROR", "CANCELED", "CLOSED"\x7d`. -/
def isTerminal (s : String) : Bool :=
  s = "FINISHED" || s = "ERROR" || s = "CANCELED" || s = "CLOSED"

/-- The initial `last_payload` value, the empty dict. -/
def emptyPayload : StatusPayload :=
  { status := none, extra := 0 }

/-- Embedding of the body of `_poll_status`: `payloads k` is the payload
returned by the `k`-th `get_operation_status` call, `fuel` the number of
loop iterations the deadline still allows, and the last argument the
current `last_payload`. -/
def pollStatusAux (payloads : Nat → StatusPayload) :
    Nat → Nat → StatusPayload → String × StatusPayload
  | 0, _, last => ("TIMEOUT", last)
  | fuel + 1, k, _ =>
    let p := payloads k
    let s := statusStr p
    if isTerminal s then (s, p) else pollStatusAux payloads fuel (k + 1) p

/-- Embedding of `_poll_status`: starts at the first status call with
`last_payload` the empty dict; `fuel = 0` models a non-positive timeout
(the loop body never runs). -/
def pollStatus (payloads : Nat → StatusPayload) (fuel : Nat) :
    String × StatusPayload :=
  pollStatusAux payloads fuel 0 emptyPayload

/-- State of the bounded-collect loop of `run_query_collect_and_stop`:
the accumulated `pages` list, the running row total, the next token to
fetch, the first job identifier seen (if any), and the number of
`fetch_result` calls made so far. -/
structure CollectState where
  pages : List Page
  rowsCollected : Nat
  token : Nat
  jid : Option String
  calls : Nat
deriving Repr, DecidableEq

/-- Embedding of `if jid is None: jid = _extract_job_id(page)`. -/
def jidUpdate (jid : Option String) (p : Page) : Option String :=
  match jid with
  | none => extract_job_id p
  | some s => some s

/-- The loop entry state: no pages, zero rows, token 0, no job id. -/
def initCollectState : CollectState :=
  { pages := [], rowsCollected := 0, token := 0, jid := none, calls := 0 }

/-- Embedding of the bounded-collect loop: `fetchF c t` is the page the
gateway returns for the `c`-th `fetch_result` call, issued with token `t`;
`fuel` models the wall-clock deadline as remaining iterations.  Every
fetched page is appended to `pages` and inspected for a job identifier;
a NOT_READY page then retries the same token, any other kind adds its
full row count and advances the token, and EOS terminates the loop. -/
def collectLoop (fetchF : Nat → Nat → Page) (maxRows : Nat) :
    Nat → CollectState → CollectState
  | 0, st => st
  | fuel + 1, st =>
    if st.rowsCollected < maxRows then
      let page := fetchF st.calls st.token
      let st1 : CollectState :=
        { st with
          pages := st.pages ++ [page]
          jid := jidUpdate st.jid page
          calls := st.calls + 1 }
      if rtypeOf page = "NOT_READY" then
        collectLoop fetchF maxRows fuel st1
      else
        let st2 : CollectState :=
          { st1 with
            rowsCollected := st1.rowsCollected + page.dataLen
            token := st1.token + 1 }
        if rtypeOf page = "EOS" then st2
        else collectLoop fetchF maxRows fuel st2
    else st

/-- Structured outcome of `run_query_collect_and_stop`: the three error
dicts and the success dict.  `stopped` records whether the optional
`stopResult` key is present (`if jid:` was truthy). -/
inductive CollectResult where
  | execError (msg : String)
  | noHandle
  | opError (tag : String) (payload : StatusPayload)
  | ok (jobID : Option String) (pages : List Page) (rowsCollected : Nat)
      (nextToken : Nat) (stopped : Bool)
deriving Repr, DecidableEq

/-- Embedding of `run_query_collect_and_stop`: `execResp` is the result of
the guarded `execute_statement` call (`error` = raised exception, caught;
`ok none` = response without a string `operationHandle`), `payloads` and
`pollFuel` drive the status poll, `fetchF` and `loopFuel` drive the
collect loop. -/
def run_query_collect_and_stop (execResp : Except String (Option String))
    (payloads : Nat → StatusPayload) (pollFuel : Nat)
    (fetchF : Nat → Nat → Page) (loopFuel : Nat) (max_rows : Nat) :
    CollectResult :=
  match execResp with
  | .error e => .execError e
  | .ok none => .noHandle
  | .ok (some _op) =>
    let pr := pollStatus payloads pollFuel
    if pr.1 ≠ "FINISHED" then .opError ("OPERATION_" ++ pr.1) pr.2
    else
      let st := collectLoop fetchF max_rows loopFuel initCollectState
      .ok st.jid st.pages st.rowsCollected st.token (jidTruthy st.jid)

/-- Projection: the `rowsCollected` field of a successful collect. -/
def CollectResult.rows? : CollectResult → Option Nat
  | .ok _ _ r _ _ => some r
  | _ => none

/-- Projection: the `nextToken` field of a successful collect. -/
def CollectResult.nextToken? : CollectResult → Option Nat
  | .ok _ _ _ t _ => some t
  | _ => none

/-- Projection: the number of entries of the `pages` list of a successful
collect. -/
def CollectResult.pagesCount? : CollectResult → Option Nat
  | .ok _ p _ _ _ => some p.length
  | _ => none

/-- One `_stream_index` entry: `\x7bsession, operation, nextToken\x7d`. -/
structure StreamEntry where
  session : String
  operation : String
  nextToken : Nat
deriving Repr, DecidableEq

/-- The `_stream_index` registry, keyed by job identifier. -/
def Registry : Type :=
  String → Option StreamEntry

/-- The empty registry. -/
def regEmpty : Registry :=
  fun _ => none

/-- Projection: the `nextToken` of a job's registry entry, `0` when the
job is absent. -/
def regToken (r : Registry) (job : String) : Nat :=
  match r job with
  | some st => st.nextToken
  | none => 0

/-- Structured outcome of `fetch_result_by_jobid`: the unknown-job error
dict or the `\x7bpage, nextToken, isEnd\x7d` success dict. -/
inductive FetchOut where
  | unknownJob
  | ok (page : Page) (nextToken : Nat) (isEnd : Bool)
deriving Repr, DecidableEq

/-- Embedding of `fetch_result_by_jobid`: `fetchAt t` is the page the
gateway returns for token `t`.  Returns the structured outcome, the
updated registry, and the number of gateway calls performed.  On a hit,
the entry's cursor is set to `max` of its previous value and one past the
fetched token. -/
def fetch_result_by_jobid (fetchAt : Nat → Page) (reg : Registry)
    (job_id : String) : FetchOut × Registry × Nat :=
  match reg job_id with
  | none => (.unknownJob, reg, 0)
  | some st =>
    let token := st.nextToken
    let page := fetchAt token
    let token1 := token + 1
    let isEnd := rtypeOf page = "EOS"
    let newNext := max st.nextToken token1
    (.ok page token1 isEnd,
     fun k => if k = job_id then some { st with nextToken := newNext }
              else reg k,
     1)

/-- Registry evolution across a sequence of `fetch_result_by_jobid` calls
for one job: each list element is the gateway's page-per-token function
for the corresponding call. -/
def fetchSeq (fs : List (Nat → Page)) (reg : Registry) (job : String) :
    Registry :=
  fs.foldl (fun r f => (fetch_result_by_jobid f r job).2.1) reg

/-- Embedding of the `status`-column search of `_job_status`: the first
index whose column name, stripped and lower-cased, equals "status". -/
def findStatusIdx : List String → Option Nat
  | [] => none
  | c :: cs =>
    if toLowerStr (trimStr c) = "status" then some 0
    else (findStatusIdx cs).map (· + 1)

/-- Embedding of `_job_status` for one DESCRIBE JOB round trip:
`execThrows` models an exception anywhere in the guarded body (caught,
yielding `none`); `opHandle` is the extracted operation handle;
`payloads`/`pollFuel` drive the 10-second status poll; `columns` are the
column names of the token-0 page and `rows` its data rows (each a list of
field strings).  Returns the first row's status field, or `none` whenever
the status cannot be determined. -/
def job_status (execThrows : Bool) (opHandle : Option String)
    (payloads : Nat → StatusPayload) (pollFuel : Nat)
    (columns : List String) (rows : List (List String)) : Option String :=
  if execThrows then none
  else
    match opHandle with
    | none => none
    | some _ =>
      if (pollStatus payloads pollFuel).1 ≠ "FINISHED" then none
      else
        match findStatusIdx columns with
        | none => none
        | some idx =>
          match rows with
          | [] => none
          | first :: _ => first.get? idx

/-- One DESCRIBE JOB round trip bundled as a value, so that a stream of
such calls can drive `cancel_job`'s confirmation loop. -/
structure DescribeCall where
  execThrows : Bool
  opHandle : Option String
  payloads : Nat → StatusPayload
  pollFuel : Nat
  columns : List String
  rows : List (List String)

/-- The `_job_status` result of one bundled DESCRIBE JOB call. -/
def jobStatusOf (d : DescribeCall) : Option String :=
  job_status d.execThrows d.opHandle d.payloads d.pollFuel d.columns d.rows

/-- Embedding of `cancel_job`'s termination-confirmation loop:
`jobStatusAt k` is the `k`-th `_job_status` result, `fuel` the iterations
the 60-second deadline allows, and the last argument the current
`last_status`.  Exits with `job_gone = true` as soon as the status is
undeterminable (`none`) or differs from "RUNNING" (stripped,
case-insensitive); returns `job_gone = false` with the last observed
status when the deadline elapses. -/
def confirmLoop (jobStatusAt : Nat → Option String) :
    Nat → Nat → Option String → Bool × Option String
  | 0, _, last => (false, last)
  | fuel + 1, k, _ =>
    match jobStatusAt k with
    | none => (true, none)
    | some s =>
      if toUpperStr (trimStr s) ≠ "RUNNING" then (true, some s)
      else confirmLoop jobStatusAt fuel (k + 1) (some s)

/-- The success dict returned by `cancel_job`. -/
structure CancelOut where
  jobID : String
  status : String
  jobGone : Bool
  jobStatus : Option String
deriving Repr, DecidableEq

/-- Embedding of `cancel_job`: `stopExec` is the result of the unguarded
`execute_statement` for STOP JOB — its `error` side models a raised
exception, which propagates (the whole call evaluates to `Except.error`).
On success the confirmation loop runs, the job is unconditionally popped
from the registry, and the `\x7bjobID, status, jobGone, jobStatus\x7d`
dict is returned together with the updated registry.  The poll of the
STOP operation itself is observed only by logging and is not modelled. -/
def cancel_job (stopExec : Except String (Option String))
    (jobStatusAt : Nat → Option String) (confirmFuel : Nat)
    (reg : Registry) (job_id : String) :
    Except String (CancelOut × Registry) :=
  match stopExec with
  | .error e => .error e
  | .ok _stopOp =>
    let r := confirmLoop jobStatusAt confirmFuel 0 none
    .ok ({ jobID := job_id, status := "STOP_SUBMITTED",
           jobGone := r.1, jobStatus := r.2 },
         fun k => if k = job_id then none else reg k)

/-- Projection: the `jobGone` flag of a normally-returning `cancel_job`. -/
def cancelJobGone? : Except String (CancelOut × Registry) → Option Bool
  | .ok (o, _) => some o.jobGone
  | .error _ => none

/-- Projection: the `jobStatus` field of a normally-returning
`cancel_job`. -/
def cancelJobStatus? :
    Except String (CancelOut × Registry) → Option (Option String)
  | .ok (o, _) => some o.jobStatus
  | .error _ => none

/-- Projection: the `status` tag of a normally-returning `cancel_job`. -/
def cancelStatusTag? : Except String (CancelOut × Registry) → Option String
  | .ok (o, _) => some o.status
  | .error _ => none

/-- Structured outcome of `run_query_stream_start`. -/
inductive StreamStartOut where
  | execError (msg : String)
  | noHandle
  | opError (tag : String) (payload : StatusPayload)
  | jobIdNotAvailable
  | ok (jobID : String)
deriving Repr, DecidableEq

/-- Embedding of the bounded token-0 retry loop of
`run_query_stream_start`: `fetch0 k` is the page returned by the `k`-th
fetch of token 0, the fuel starts at 20 retries, and the last argument is
the job identifier extracted so far.  Breaks as soon as a truthy job
identifier is seen or the page kind is not NOT_READY; returns the last
extracted identifier when the retries are exhausted. -/
def streamRetryLoop (fetch0 : Nat → Page) :
    Nat → Nat → Option String → Option String
  | 0, _, jid => jid
  | retries + 1, k, _ =>
    let page := fetch0 k
    let jid := extract_job_id page
    if jidTruthy jid || rtypeOf page ≠ "NOT_READY" then jid
    else streamRetryLoop fetch0 retries (k + 1) jid

/-- Embedding of `run_query_stream_start`: on a FINISHED poll, runs the
token-0 retry loop; a missing job identifier yields the distinct
`JOB_ID_NOT_AVAILABLE` error, otherwise the job is registered with
`nextToken = 1` and only `\x7bjobID\x7d` is returned. -/
def run_query_stream_start (session : String)
    (execResp : Except String (Option String))
    (payloads : Nat → StatusPayload) (pollFuel : Nat)
    (fetch0 : Nat → Page) (reg : Registry) : StreamStartOut × Registry :=
  match execResp with
  | .error e => (.execError e, reg)
  | .ok none => (.noHandle, reg)
  | .ok (some op) =>
    let pr := pollStatus payloads pollFuel
    if pr.1 ≠ "FINISHED" then (.opError ("OPERATION_" ++ pr.1) pr.2, reg)
    else
      match streamRetryLoop fetch0 20 0 none with
      | none => (.jobIdNotAvailable, reg)
      | some j =>
        (.ok j,
         fun k =>
           if k = j then
             some { session := session, operation := op, nextToken := 1 }
           else reg k)

/-! Concrete gateway traces used to evaluate the model. -/

/-- A status stream that reports FINISHED from the first poll. -/
def pollFinished : Nat → StatusPayload :=
  fun _ => { status := some "FINISHED", extra := 0 }

/-- A PAYLOAD page with one data row and no job identifier. -/
def pageP1 : Page :=
  { resultType := some "PAYLOAD", jobID := none, jobId := none, dataLen := 1 }

/-- A PAYLOAD page with two data rows and no job identifier. -/
def pageP2 : Page :=
  { resultType := some "PAYLOAD", jobID := none, jobId := none, dataLen := 2 }

/-- A PAYLOAD page with three data rows and no job identifier. -/
def pageP3 : Page :=
  { resultType := some "PAYLOAD", jobID := none, jobId := none, dataLen := 3 }

/-- An EOS page with zero data rows. -/
def pageEOS0 : Page :=
  { resultType := some "EOS", jobID := none, jobId := none, dataLen := 0 }

/-- An EOS page carrying five data rows. -/
def pageEOS5 : Page :=
  { resultType := some "EOS", jobID := none, jobId := none, dataLen := 5 }

/-- A NOT_READY page. -/
def pageNR : Page :=
  { resultType := some "NOT_READY", jobID := none, jobId := none,
    dataLen := 0 }

/-- A PAYLOAD page whose `jobID` field carries the identifier "jid-1". -/
def pageJid : Page :=
  { resultType := some "PAYLOAD", jobID := some "jid-1", jobId := none,
    dataLen := 0 }

/-- The two-page trace of the claimed collect scenario: token 0 is a
one-row PAYLOAD page, every later token an empty EOS page. -/
def fetchC1 : Nat → Nat → Page :=
  fun _ tok => if tok = 0 then pageP1 else pageEOS0

/-- A trace whose first fetch is NOT_READY, second a two-row PAYLOAD
page, and third an EOS page. -/
def fetchC9 : Nat → Nat → Page :=
  fun c _ => if c = 0 then pageNR else if c = 1 then pageP2 else pageEOS0

/-- A trace whose token 0 carries three rows at once. -/
def fetchBig : Nat → Nat → Page :=
  fun _ tok => if tok = 0 then pageP3 else pageEOS0

/-- A per-token trace that always returns the one-row PAYLOAD page. -/
def fetchConst : Nat → Page :=
  fun _ => pageP1

/-- A trace that always returns the five-row EOS page. -/
def fetchEOS5 : Nat → Nat → Page :=
  fun _ _ => pageEOS5

/-- A registry holding exactly the job "job-1" at cursor 1. -/
def regOne : Registry :=
  fun k =>
    if k = "job-1" then
      some { session := "s", operation := "o", nextToken := 1 }
    else none

/-- A DESCRIBE JOB stream whose status is never determinable. -/
def noneStatuses : Nat → Option String :=
  fun _ => none

/-- A status stream that reports lower-case "finished" on the second
poll and RUNNING before it. -/
def payloadsW : Nat → StatusPayload :=
  fun k =>
    if k = 1 then { status := some "finished", extra := 7 }
    else { status := some "RUNNING", extra := k }

/-! Helper lemmas about the bounded-collect loop. -/

/-- Once the running total has reached the row cap, the loop returns its
state unchanged, whatever fuel remains. -/
theorem collectLoop_stop (f : Nat → Nat → Page) (mr fuel : Nat)
    (st : CollectState) (h : ¬ st.rowsCollected < mr) :
    collectLoop f mr fuel st = st := by
  cases fuel with
  | zero => rfl
  | succ n => simp [collectLoop, h]

/-- Under the cap, a NOT_READY fetch appends the page, runs job-id
extraction, counts the call, and leaves rows and token unchanged. -/
theorem collectLoop_succ_notReady (f : Nat → Nat → Page) (mr fuel : Nat)
    (st : CollectState) (h : st.rowsCollected < mr)
    (hnr : rtypeOf (f st.calls st.token) = "NOT_READY") :
    collectLoop f mr (fuel + 1) st =
      collectLoop f mr fuel
        { st with
          pages := st.pages ++ [f st.calls st.token]
          jid := jidUpdate st.jid (f st.calls st.token)
          calls := st.calls + 1 } := by
  simp [collectLoop, h, hnr]

/-- Under the cap, a fetch of any kind other than NOT_READY and EOS
appends the page, adds its full row count, advances the token, and
continues. -/
theorem collectLoop_succ_payload (f : Nat → Nat → Page) (mr fuel : Nat)
    (st : CollectState) (h : st.rowsCollected < mr)
    (hnr : rtypeOf (f st.calls st.token) ≠ "NOT_READY")
    (heos : rtypeOf (f st.calls st.token) ≠ "EOS") :
    collectLoop f mr (fuel + 1) st =
      collectLoop f mr fuel
        { st with
          pages := st.pages ++ [f st.calls st.token]
          jid := jidUpdate st.jid (f st.calls st.token)
          calls := st.calls + 1
          rowsCollected := st.rowsCollected + (f st.calls st.token).dataLen
          token := st.token + 1 } := by
  simp [collectLoop, h, hnr, heos]

/-- Under the cap, an EOS fetch appends the page, adds its full row
count, advances the token, and terminates the loop. -/
theorem collectLoop_succ_eos (f : Nat → Nat → Page) (mr fuel : Nat)
    (st : CollectState) (h : st.rowsCollected < mr)
    (heos : rtypeOf (f st.calls st.token) = "EOS") :
    collectLoop f mr (fuel + 1) st =
      { st with
        pages := st.pages ++ [f st.calls st.token]
        jid := jidUpdate st.jid (f st.calls st.token)
        calls := st.calls + 1
        rowsCollected := st.rowsCollected + (f st.calls st.token).dataLen
        token := st.token + 1 } := by
  have hnr : rtypeOf (f st.calls st.token) ≠ "NOT_READY" := by
    rw [heos]; decide
  simp [collectLoop, h, hnr, heos]

/-- A status stream whose first payload reads FINISHED makes the poll
return FINISHED with that payload at once. -/
theorem pollStatus_first_finished (pp : Nat → StatusPayload) (pf : Nat)
    (hpp : statusStr (pp 0) = "FINISHED") :
    pollStatus pp (pf + 1) = ("FINISHED", pp 0) := by
  have hterm : isTerminal "FINISHED" = true := by decide
  simp [pollStatus, pollStatusAux, hpp, hterm]

/-- Claim C1 counterexample: against the claimed two-page trace (token 0
a one-row PAYLOAD page, token 1 an empty EOS page) with `max_rows = 1`
and an ample deadline, `run_query_collect_and_stop` returns
`rowsCollected = 1` but `nextToken = 1` and a single-entry `pages` list —
not `nextToken = 2` with two entries: the row cap is reached before the
EOS page is ever fetched. -/
theorem collect_cap_one_two_page_counterexample :
    (run_query_collect_and_stop (.ok (some "op-1")) pollFinished 1 fetchC1
        10 1).rows? = some 1 ∧
    (run_query_collect_and_stop (.ok (some "op-1")) pollFinished 1 fetchC1
        10 1).nextToken? = some 1 ∧
    (run_query_collect_and_stop (.ok (some "op-1")) pollFinished 1 fetchC1
        10 1).pagesCount? = some 1 ∧
    ¬ ((run_query_collect_and_stop (.ok (some "op-1")) pollFinished 1
          fetchC1 10 1).nextToken? = some 2 ∧
       (run_query_collect_and_stop (.ok (some "op-1")) pollFinished 1
          fetchC1 10 1).pagesCount? = some 2) := by
  decide

/-- Claim C1 (amended): a run of `run_query_collect_and_stop` with
`max_rows = 1` and an ample deadline, whose operation finishes on the
first poll and whose token-0 page is a one-row PAYLOAD page without a
job identifier, returns the success object with `rowsCollected = 1`,
`nextToken = 1`, and a `pages` list holding exactly that one page: the
row cap stops the loop before any second page is fetched. -/
theorem collect_cap_one_returns_single_page (pp : Nat → StatusPayload)
    (pf lf : Nat) (f : Nat → Nat → Page) (op : String) (p : Page)
    (hpp : statusStr (pp 0) = "FINISHED")
    (hf : f 0 0 = p)
    (hrt : rtypeOf p = "PAYLOAD")
    (hd : p.dataLen = 1)
    (hj : extract_job_id p = none) :
    run_query_collect_and_stop (.ok (some op)) pp (pf + 1) f (lf + 1) 1 =
      .ok none [p] 1 1 false := by
  have hpoll := pollStatus_first_finished pp pf hpp
  have hnr : rtypeOf (f initCollectState.calls initCollectState.token) ≠
      "NOT_READY" := by
    simp only [initCollectState]
    rw [hf, hrt]; decide
  have heos : rtypeOf (f initCollectState.calls initCollectState.token) ≠
      "EOS" := by
    simp only [initCollectState]
    rw [hf, hrt]; decide
  have h0 : initCollectState.rowsCollected < 1 := by decide
  have e1 := collectLoop_succ_payload f 1 lf initCollectState h0 hnr heos
  simp only [initCollectState] at e1
  rw [hf] at e1
  simp [hd, hj, jidUpdate] at e1
  have e2 := collectLoop_stop f 1 lf
    { pages := [p], rowsCollected := 1, token := 1, jid := none,
      calls := 1 } (by simp)
  rw [e2] at e1
  simp [run_query_collect_and_stop, hpoll, initCollectState, e1, jidTruthy]

/-- Claim C1 witness: the amended statement evaluated on the concrete
two-page trace. -/
theorem collect_cap_one_returns_single_page_witness :
    (statusStr (pollFinished 0) = "FINISHED" ∧ fetchC1 0 0 = pageP1 ∧
     rtypeOf pageP1 = "PAYLOAD" ∧ pageP1.dataLen = 1 ∧
     extract_job_id pageP1 = none) ∧
    run_query_collect_and_stop (.ok (some "op-1")) pollFinished 1 fetchC1
      10 1 = .ok none [pageP1] 1 1 false :=
  ⟨⟨by decide, by decide, by decide, by decide, by decide⟩,
   collect_cap_one_returns_single_page pollFinished 0 9 fetchC1 "op-1"
     pageP1 (by decide) (by decide) (by decide) (by decide) (by decide)⟩

/-- Claim C9 counterexample: a trace whose first fetch is NOT_READY,
second a two-row PAYLOAD page and third an EOS page yields a `pages`
list with three entries — the NOT_READY page is recorded, contrary to
the claim that it is absent from `pages` (rows and token still reflect
only the two counted pages). -/
theorem not_ready_page_recorded_counterexample :
    (run_query_collect_and_stop (.ok (some "op-1")) pollFinished 1 fetchC9
        10 5).pagesCount? = some 3 ∧
    (run_query_collect_and_stop (.ok (some "op-1")) pollFinished 1 fetchC9
        10 5).rows? = some 2 ∧
    (run_query_collect_and_stop (.ok (some "op-1")) pollFinished 1 fetchC9
        10 5).nextToken? = some 2 ∧
    ¬ ((run_query_collect_and_stop (.ok (some "op-1")) pollFinished 1
          fetchC9 10 5).pagesCount? = some 2) := by
  decide

/-- Claim C9 (amended): in the bounded-collect loop a NOT_READY fetch IS
appended to the recorded pages (and job-id extraction runs on it), but
contributes no rows and leaves the token unchanged, so the same token is
retried; a fetch of any other non-EOS kind is appended, adds its full
row count, and advances the token. -/
theorem not_ready_page_step (f g : Nat → Nat → Page) (mr fuel : Nat)
    (st su : CollectState)
    (hst : st.rowsCollected < mr) (hsu : su.rowsCollected < mr)
    (hf : rtypeOf (f st.calls st.token) = "NOT_READY")
    (hg1 : rtypeOf (g su.calls su.token) ≠ "NOT_READY")
    (hg2 : rtypeOf (g su.calls su.token) ≠ "EOS") :
    collectLoop f mr (fuel + 1) st =
      collectLoop f mr fuel
        { st with
          pages := st.pages ++ [f st.calls st.token]
          jid := jidUpdate st.jid (f st.calls st.token)
          calls := st.calls + 1 } ∧
    collectLoop g mr (fuel + 1) su =
      collectLoop g mr fuel
        { su with
          pages := su.pages ++ [g su.calls su.token]
          jid := jidUpdate su.jid (g su.calls su.token)
          calls := su.calls + 1
          rowsCollected := su.rowsCollected + (g su.calls su.token).dataLen
          token := su.token + 1 } :=
  ⟨collectLoop_succ_notReady f mr fuel st hst hf,
   collectLoop_succ_payload g mr fuel su hsu hg1 hg2⟩

/-- Claim C9 witness: the step behaviour evaluated at the loop entry
state against the NOT_READY-first trace and the three-row trace. -/
theorem not_ready_page_step_witness :
    (initCollectState.rowsCollected < 5 ∧
     initCollectState.rowsCollected < 5 ∧
     rtypeOf (fetchC9 initCollectState.calls initCollectState.token) =
       "NOT_READY" ∧
     rtypeOf (fetchBig initCollectState.calls initCollectState.token) ≠
       "NOT_READY" ∧
     rtypeOf (fetchBig initCollectState.calls initCollectState.token) ≠
       "EOS") ∧
    (collectLoop fetchC9 5 4 initCollectState =
       collectLoop fetchC9 5 3
         { pages := [pageNR], rowsCollected := 0, token := 0, jid := none,
           calls := 1 } ∧
     collectLoop fetchBig 5 4 initCollectState =
       collectLoop fetchBig 5 3
         { pages := [pageP3], rowsCollected := 3, token := 1, jid := none,
           calls := 1 }) :=
  ⟨⟨by decide, by decide, by decide, by decide, by decide⟩,
   not_ready_page_step fetchC9 fetchBig 5 3 initCollectState
     initCollectState (by decide) (by decide) (by decide) (by decide)
     (by decide)⟩

/-- Claim C10: an EOS page fetched under the cap adds its full row count
to the running total with no truncation (the cap is only re-checked
before the next fetch), and on the concrete trace whose token-0 page
carries three rows a run with `max_rows = 1` returns
`rowsCollected = 3`, strictly exceeding the cap. -/
theorem rows_can_exceed_cap (f : Nat → Nat → Page) (mr fuel : Nat)
    (st : CollectState) (h : st.rowsCollected < mr)
    (heos : rtypeOf (f st.calls st.token) = "EOS") :
    (collectLoop f mr (fuel + 1) st).rowsCollected =
      st.rowsCollected + (f st.calls st.token).dataLen ∧
    (run_query_collect_and_stop (.ok (some "op-1")) pollFinished 1
        fetchBig 10 1).rows? = some 3 ∧
    1 < 3 := by
  refine ⟨?_, by decide, by decide⟩
  rw [collectLoop_succ_eos f mr fuel st h heos]

/-- Claim C10 witness: the EOS step evaluated at the loop entry state
against the five-row EOS trace. -/
theorem rows_can_exceed_cap_witness :
    (initCollectState.rowsCollected < 1 ∧
     rtypeOf (fetchEOS5 initCollectState.calls initCollectState.token) =
       "EOS") ∧
    ((collectLoop fetchEOS5 1 4 initCollectState).rowsCollected =
       initCollectState.rowsCollected +
         (fetchEOS5 initCollectState.calls initCollectState.token).dataLen ∧
     (run_query_collect_and_stop (.ok (some "op-1")) pollFinished 1
         fetchBig 10 1).rows? = some 3 ∧
     1 < 3) :=
  ⟨⟨by decide, by decide⟩,
   rows_can_exceed_cap fetchEOS5 1 3 initCollectState (by decide)
     (by decide)⟩

/-- When no payload within the remaining fuel reads terminal, the poll
loop runs the deadline out and reports TIMEOUT with the last payload it
saw (its incoming `last` when the fuel is already exhausted). -/
theorem pollStatusAux_timeout (payloads : Nat → StatusPayload)
    (fuel : Nat) :
    ∀ (k0 : Nat) (last : StatusPayload),
      (∀ j, j < fuel → isTerminal (statusStr (payloads (k0 + j))) = false) →
      pollStatusAux payloads fuel k0 last =
        ("TIMEOUT", if fuel = 0 then last else payloads (k0 + fuel - 1)) := by
  induction fuel with
  | zero => intro k0 last _; simp [pollStatusAux]
  | succ m ih =>
    intro k0 last h
    have h0 : isTerminal (statusStr (payloads (k0 + 0))) = false :=
      h 0 (by omega)
    rw [Nat.add_zero] at h0
    have ih' := ih (k0 + 1) (payloads k0) (fun j hj => by
      have hx := h (j + 1) (by omega)
      have hi : k0 + (j + 1) = k0 + 1 + j := by omega
      rwa [hi] at hx)
    have step : pollStatusAux payloads (m + 1) k0 last =
        pollStatusAux payloads m (k0 + 1) (payloads k0) := by
      simp [pollStatusAux, h0]
    rw [step, ih']
    cases m with
    | zero => simp
    | succ n =>
      simp only [Nat.succ_ne_zero, if_false]
      have hi : k0 + 1 + (n + 1) - 1 = k0 + (n + 1 + 1) - 1 := by omega
      rw [hi]

/-- When the `k`-th payload is the first terminal one and the fuel still
covers it, the poll loop returns that status and payload at once. -/
theorem pollStatusAux_first_terminal (payloads : Nat → StatusPayload)
    (fuel : Nat) :
    ∀ (k0 k : Nat) (last : StatusPayload),
      k < fuel →
      isTerminal (statusStr (payloads (k0 + k))) = true →
      (∀ j, j < k → isTerminal (statusStr (payloads (k0 + j))) = false) →
      pollStatusAux payloads fuel k0 last =
        (statusStr (payloads (k0 + k)), payloads (k0 + k)) := by
  induction fuel with
  | zero => intro k0 k last hk; omega
  | succ m ih =>
    intro k0 k last hk hterm hbefore
    cases k with
    | zero =>
      rw [Nat.add_zero] at hterm ⊢
      simp [pollStatusAux, hterm]
    | succ n =>
      have h0 : isTerminal (statusStr (payloads (k0 + 0))) = false :=
        hbefore 0 (by omega)
      rw [Nat.add_zero] at h0
      have step : pollStatusAux payloads (m + 1) k0 last =
          pollStatusAux payloads m (k0 + 1) (payloads k0) := by
        simp [pollStatusAux, h0]
      have hterm' : isTerminal (statusStr (payloads (k0 + 1 + n))) = true := by
        have hi : k0 + 1 + n = k0 + (n + 1) := by omega
        rw [hi]; exact hterm
      have hbefore' : ∀ j, j < n →
          isTerminal (statusStr (payloads (k0 + 1 + j))) = false :=
        fun j hj => by
          have hx := hbefore (j + 1) (by omega)
          have hi : k0 + (j + 1) = k0 + 1 + j := by omega
          rwa [hi] at hx
      have ih' := ih (k0 + 1) n (payloads k0) (by omega) hterm' hbefore'
      rw [step, ih']
      have hi : k0 + 1 + n = k0 + (n + 1) := by omega
      rw [hi]

/-- Claim C4: `_poll_status` returns a terminal status (FINISHED, ERROR,
CANCELED or CLOSED after upper-casing, so comparison is
case-insensitive) immediately together with that raw payload as soon as
one is observed; and when no queried status within the timeout budget is
terminal it returns the synthetic TIMEOUT outcome with the last observed
payload, or the empty payload when the budget allowed no status fetch at
all. -/
theorem pollStatus_terminal_or_timeout (payloads : Nat → StatusPayload)
    (fuel k : Nat) :
    ((∀ j, j < fuel → isTerminal (statusStr (payloads j)) = false) →
       pollStatus payloads fuel =
         ("TIMEOUT", if fuel = 0 then emptyPayload else payloads (fuel - 1))) ∧
    (k < fuel → isTerminal (statusStr (payloads k)) = true →
       (∀ j, j < k → isTerminal (statusStr (payloads j)) = false) →
       pollStatus payloads fuel = (statusStr (payloads k), payloads k)) := by
  constructor
  · intro h
    have hx := pollStatusAux_timeout payloads fuel 0 emptyPayload
      (fun j hj => by simpa using h j hj)
    simpa [pollStatus] using hx
  · intro hk ht hb
    have hx := pollStatusAux_first_terminal payloads fuel 0 k emptyPayload
      hk (by simpa using ht) (fun j hj => by simpa using hb j hj)
    simpa [pollStatus] using hx

/-- Claim C4 witness: a stream reporting lower-case "finished" on its
second poll makes a three-iteration poll return FINISHED with that
payload. -/
theorem pollStatus_terminal_or_timeout_witness :
    (1 < 3 ∧ isTerminal (statusStr (payloadsW 1)) = true ∧
     (∀ j, j < 1 → isTerminal (statusStr (payloadsW j)) = false)) ∧
    pollStatus payloadsW 3 = (statusStr (payloadsW 1), payloadsW 1) :=
  ⟨⟨by decide, by decide, by decide⟩,
   (pollStatus_terminal_or_timeout payloadsW 3 1).2 (by decide) (by decide)
     (by decide)⟩

/-- Claim C2: whenever `cancel_job` returns normally, the job identifier
has been removed from the registry (whether or not termination was
confirmed), every other key is untouched, and a subsequent
`fetch_result_by_jobid` for that identifier returns the unknown-job
error without any gateway call. -/
theorem cancel_removes_job_then_fetch_unknown
    (stopExec : Except String (Option String))
    (jobStatusAt : Nat → Option String) (confirmFuel : Nat)
    (reg : Registry) (job_id k : String) (fetchAt : Nat → Page)
    (out : CancelOut) (reg2 : Registry)
    (h : cancel_job stopExec jobStatusAt confirmFuel reg job_id =
      .ok (out, reg2))
    (hk : k ≠ job_id) :
    reg2 job_id = none ∧ reg2 k = reg k ∧
    fetch_result_by_jobid fetchAt reg2 job_id = (.unknownJob, reg2, 0) := by
  cases stopExec with
  | error e => simp [cancel_job] at h
  | ok s =>
    simp only [cancel_job, Except.ok.injEq, Prod.mk.injEq] at h
    obtain ⟨-, hr⟩ := h
    subst hr
    refine ⟨by simp, by simp [hk], ?_⟩
    simp [fetch_result_by_jobid]

/-- The removed-job registry of the C2 witness scenario. -/
def regOneRemoved : Registry :=
  fun k => if k = "job-1" then none else regOne k

/-- The cancel output of the C2 witness scenario. -/
def cancelOutGone : CancelOut :=
  { jobID := "job-1", status := "STOP_SUBMITTED", jobGone := true,
    jobStatus := none }

/-- Claim C2 witness: cancelling the registered job "job-1" and fetching
it again on the concrete scenario. -/
theorem cancel_removes_job_then_fetch_unknown_witness :
    (cancel_job (.ok (some "op")) noneStatuses 3 regOne "job-1" =
       .ok (cancelOutGone, regOneRemoved) ∧ "x" ≠ "job-1") ∧
    (regOneRemoved "job-1" = none ∧ regOneRemoved "x" = regOne "x" ∧
     fetch_result_by_jobid fetchConst regOneRemoved "job-1" =
       (.unknownJob, regOneRemoved, 0)) :=
  ⟨⟨rfl, by decide⟩,
   cancel_removes_job_then_fetch_unknown (.ok (some "op")) noneStatuses 3
     regOne "job-1" "x" fetchConst cancelOutGone regOneRemoved rfl
     (by decide)⟩

/-- A DESCRIBE JOB round trip that polls FINISHED and finds a status
column but no data rows, so the job status is undeterminable. -/
def describeNoRows : DescribeCall :=
  { execThrows := false, opHandle := some "op-d", payloads := pollFinished,
    pollFuel := 1, columns := ["status"], rows := [] }

/-- Claim C3 counterexample: when the very first status probe is
undeterminable (DESCRIBE JOB returns no rows), `cancel_job` reports
`jobGone = true`, not `jobGone = false` as claimed. -/
theorem cancel_undeterminable_status_counterexample :
    jobStatusOf describeNoRows = none ∧
    cancelJobGone? (cancel_job (.ok (some "op"))
        (fun _ => jobStatusOf describeNoRows) 5 regOne "job-1") =
      some true ∧
    ¬ (cancelJobGone? (cancel_job (.ok (some "op"))
          (fun _ => jobStatusOf describeNoRows) 5 regOne "job-1") =
        some false) := by
  decide

/-- Claim C3 (amended): whenever the job status cannot be determined the
helper returns `none` — shown for a failing DESCRIBE query, a missing
operation handle, a missing status column, and an empty row set — and
`cancel_job`, observing an undeterminable status on its first probe,
exits its confirmation loop reporting `jobGone = true` with
`jobStatus = none` (the undeterminable job is treated as gone, not as
unconfirmed). -/
theorem cancel_undeterminable_status_reports_gone (stopOp : Option String)
    (jobStatusAt : Nat → Option String) (fuel : Nat) (reg : Registry)
    (job h' : String) (oh : Option String) (pp : Nat → StatusPayload)
    (pf : Nat) (cols : List String) (rows : List (List String))
    (h0 : jobStatusAt 0 = none) :
    cancelJobGone? (cancel_job (.ok stopOp) jobStatusAt (fuel + 1) reg job) =
      some true ∧
    cancelJobStatus? (cancel_job (.ok stopOp) jobStatusAt (fuel + 1) reg
        job) = some none ∧
    job_status true oh pp pf cols rows = none ∧
    job_status false none pp pf cols rows = none ∧
    job_status false (some h') pp pf [] rows = none ∧
    job_status false (some h') pp pf cols [] = none := by
  have hc : confirmLoop jobStatusAt (fuel + 1) 0 none = (true, none) := by
    simp [confirmLoop, h0]
  refine ⟨?_, ?_, rfl, rfl, ?_, ?_⟩
  · simp [cancel_job, cancelJobGone?, hc]
  · simp [cancel_job, cancelJobStatus?, hc]
  · by_cases hp : (pollStatus pp pf).1 ≠ "FINISHED"
    · simp [job_status, hp]
    · simp [job_status, hp, findStatusIdx]
  · by_cases hp : (pollStatus pp pf).1 ≠ "FINISHED"
    · simp [job_status, hp]
    · cases hidx : findStatusIdx cols <;> simp [job_status, hp, hidx]

/-- Claim C3 witness: the amended statement evaluated on the no-rows
DESCRIBE scenario. -/
theorem cancel_undeterminable_status_reports_gone_witness :
    ((fun _ : Nat => jobStatusOf describeNoRows) 0 = none) ∧
    (cancelJobGone? (cancel_job (.ok (some "op"))
         (fun _ => jobStatusOf describeNoRows) 5 regOne "job-1") =
       some true ∧
     cancelJobStatus? (cancel_job (.ok (some "op"))
         (fun _ => jobStatusOf describeNoRows) 5 regOne "job-1") =
       some none ∧
     job_status true (some "x") pollFinished 1 ["c"] [["r"]] = none ∧
     job_status false none pollFinished 1 ["c"] [["r"]] = none ∧
     job_status false (some "oph") pollFinished 1 [] [["r"]] = none ∧
     job_status false (some "oph") pollFinished 1 ["c"] [] = none) :=
  ⟨by decide,
   cancel_undeterminable_status_reports_gone (some "op")
     (fun _ => jobStatusOf describeNoRows) 4 regOne "job-1" "oph"
     (some "x") pollFinished 1 ["c"] [["r"]] (by decide)⟩

/-- A single fetch advances a registered job's cursor to one past the
fetched token. -/
theorem fetch_advance_entry (f : Nat → Page) (reg : Registry)
    (job : String) (st : StreamEntry) (h : reg job = some st) :
    (fetch_result_by_jobid f reg job).2.1 job =
      some { st with nextToken := st.nextToken + 1 } := by
  simp [fetch_result_by_jobid, h, Nat.max_eq_right (Nat.le_succ st.nextToken)]

/-- Across any sequence of per-job fetches, a registered job stays
registered and its cursor never decreases. -/
theorem fetchSeq_entry_mono (job : String) (fs : List (Nat → Page)) :
    ∀ (reg : Registry) (st : StreamEntry), reg job = some st →
      ∃ st', fetchSeq fs reg job job = some st' ∧
        st.nextToken ≤ st'.nextToken := by
  induction fs with
  | nil => intro reg st h; exact ⟨st, h, le_refl _⟩
  | cons f fs ih =>
    intro reg st h
    have hstep := fetch_advance_entry f reg job st h
    obtain ⟨st', h1, h2⟩ := ih ((fetch_result_by_jobid f reg job).2.1) _ hstep
    refine ⟨st', by simpa [fetchSeq] using h1, ?_⟩
    simp at h2
    omega

/-- Claim C6: for a registered job, the registry cursor is monotonically
non-decreasing across any sequence of `fetch_result_by_jobid` calls for
that job (the entry survives every fetch), and a single fetch sets it to
the maximum of its previous value and one past the fetched token. -/
theorem fetch_nextToken_monotone (fs : List (Nat → Page)) (f : Nat → Page)
    (reg : Registry) (job : String) (st : StreamEntry)
    (h : reg job = some st) :
    (fetchSeq fs reg job job).isSome = true ∧
    st.nextToken ≤ regToken (fetchSeq fs reg job) job ∧
    (fetch_result_by_jobid f reg job).2.1 job =
      some { st with nextToken := max st.nextToken (st.nextToken + 1) } := by
  obtain ⟨st', h1, h2⟩ := fetchSeq_entry_mono job fs reg st h
  refine ⟨by simp [h1], ?_, by simp [fetch_result_by_jobid, h]⟩
  simpa [regToken, h1] using h2

/-- Claim C6 witness: two consecutive fetches of the registered job
"job-1" starting at cursor 1. -/
theorem fetch_nextToken_monotone_witness :
    regOne "job-1" =
      some { session := "s", operation := "o", nextToken := 1 } ∧
    ((fetchSeq [fetchConst, fetchConst] regOne "job-1" "job-1").isSome =
       true ∧
     1 ≤ regToken (fetchSeq [fetchConst, fetchConst] regOne "job-1")
       "job-1" ∧
     (fetch_result_by_jobid fetchConst regOne "job-1").2.1 "job-1" =
       some { session := "s", operation := "o",
              nextToken := max 1 (1 + 1) }) :=
  ⟨by decide,
   fetch_nextToken_monotone [fetchConst, fetchConst] fetchConst regOne
     "job-1" { session := "s", operation := "o", nextToken := 1 }
     (by decide)⟩

/-- Claim C7 counterexample: for the unregistered identifier "ghost",
`fetch_result_by_jobid` does return the unknown-job error, but
`cancel_job` does not — it performs no registry check and returns its
normal STOP_SUBMITTED outcome. -/
theorem cancel_unknown_job_counterexample :
    (fetch_result_by_jobid fetchConst regEmpty "ghost").1 = .unknownJob ∧
    cancelStatusTag? (cancel_job (.ok (some "op")) noneStatuses 3 regEmpty
        "ghost") = some "STOP_SUBMITTED" ∧
    cancelJobGone? (cancel_job (.ok (some "op")) noneStatuses 3 regEmpty
        "ghost") = some true := by
  decide

/-- Claim C7 (amended): for any job identifier absent from the registry,
`fetch_result_by_jobid` reports the unknown-job error, leaves the
registry untouched, and performs no gateway call; `cancel_job`, by
contrast, never consults the registry and returns its normal
STOP_SUBMITTED outcome for the absent identifier. -/
theorem unknown_job_fetch_only (fetchAt : Nat → Page) (reg : Registry)
    (job : String) (stopOp : Option String)
    (jobStatusAt : Nat → Option String) (fuel : Nat)
    (h : reg job = none) :
    fetch_result_by_jobid fetchAt reg job = (.unknownJob, reg, 0) ∧
    cancelStatusTag? (cancel_job (.ok stopOp) jobStatusAt fuel reg job) =
      some "STOP_SUBMITTED" := by
  exact ⟨by simp [fetch_result_by_jobid, h],
         by simp [cancel_job, cancelStatusTag?]⟩

/-- Claim C7 witness: the amended statement evaluated on the empty
registry for "ghost". -/
theorem unknown_job_fetch_only_witness :
    regEmpty "ghost" = none ∧
    (fetch_result_by_jobid fetchConst regEmpty "ghost" =
       (.unknownJob, regEmpty, 0) ∧
     cancelStatusTag? (cancel_job (.ok (some "op")) noneStatuses 3 regEmpty
         "ghost") = some "STOP_SUBMITTED") :=
  ⟨rfl,
   unknown_job_fetch_only fetchConst regEmpty "ghost" (some "op")
     noneStatuses 3 rfl⟩

/-- Claim C8 counterexample: a transport exception raised while
submitting STOP JOB propagates out of `cancel_job` unhandled (the call
evaluates to the raised exception, not a structured object), whereas the
same exception during `run_query_collect_and_stop`'s submission is
caught and returned as the structured EXECUTE_EXCEPTION outcome. -/
theorem cancel_submit_exception_counterexample :
    cancel_job (.error "connection refused") noneStatuses 3 regOne
      "job-1" = .error "connection refused" ∧
    run_query_collect_and_stop (.error "connection refused") pollFinished
      1 fetchC1 10 5 = .execError "connection refused" :=
  ⟨rfl, rfl⟩

/-- Claim C8 (amended): a statement-submission exception is caught and
returned as the structured EXECUTE_EXCEPTION outcome by
`run_query_collect_and_stop` and `run_query_stream_start`, but
`cancel_job` does not guard its STOP JOB submission, so there the
exception propagates to the caller unhandled. -/
theorem submit_exception_handling (e : String) (pp : Nat → StatusPayload)
    (pf : Nat) (f : Nat → Nat → Page) (lf mr : Nat) (session : String)
    (f0 : Nat → Page) (reg reg2 : Registry)
    (jobStatusAt : Nat → Option String) (cfuel : Nat) (job : String) :
    run_query_collect_and_stop (.error e) pp pf f lf mr = .execError e ∧
    (run_query_stream_start session (.error e) pp pf f0 reg).1 =
      .execError e ∧
    cancel_job (.error e) jobStatusAt cfuel reg2 job = .error e :=
  ⟨rfl, rfl, rfl⟩

/-- A truthy job identifier at the current fetch breaks the token-0
retry loop at once, returning that identifier. -/
theorem streamRetryLoop_break (f0 : Nat → Page) (retries k : Nat)
    (jid0 : Option String)
    (h : jidTruthy (extract_job_id (f0 k)) = true) :
    streamRetryLoop f0 (retries + 1) k jid0 = extract_job_id (f0 k) := by
  simp [streamRetryLoop, h]

/-- Claim C5: when the operation finishes and the token-0 page carries a
(truthy) job identifier, `run_query_stream_start` returns only that
identifier and registers the job with `nextToken = 1`; and when the
bounded retry loop never observes a job identifier, it returns the
distinct job-identifier-unavailable failure (not a timeout), leaving the
registry unchanged. -/
theorem stream_start_registers_or_reports_unavailable (session op : String)
    (pp : Nat → StatusPayload) (pf : Nat) (f0 g0 : Nat → Page)
    (reg reg' : Registry) (j : String)
    (hpp : statusStr (pp 0) = "FINISHED")
    (hj : extract_job_id (f0 0) = some j) (hne : j ≠ "")
    (hg : streamRetryLoop g0 20 0 none = none) :
    (run_query_stream_start session (.ok (some op)) pp (pf + 1) f0
        reg).1 = .ok j ∧
    (run_query_stream_start session (.ok (some op)) pp (pf + 1) f0 reg).2
        j = some { session := session, operation := op, nextToken := 1 } ∧
    run_query_stream_start session (.ok (some op)) pp (pf + 1) g0 reg' =
      (.jobIdNotAvailable, reg') := by
  have hpoll := pollStatus_first_finished pp pf hpp
  have htr : jidTruthy (extract_job_id (f0 0)) = true := by
    rw [hj]; simp [jidTruthy, hne]
  have hloop : streamRetryLoop f0 20 0 none = some j := by
    rw [show (20 : Nat) = 19 + 1 from rfl, streamRetryLoop_break f0 19 0
      none htr]
    exact hj
  refine ⟨?_, ?_, ?_⟩
  · simp [run_query_stream_start, hpoll, hloop]
  · simp [run_query_stream_start, hpoll, hloop]
  · simp [run_query_stream_start, hpoll, hg]

/-- The token-0 trace of the C5 witness: every fetch carries the job
identifier "jid-1". -/
def fetch0Jid : Nat → Page :=
  fun _ => pageJid

/-- The token-0 trace of the C5 failure scenario: a PAYLOAD page without
any job identifier. -/
def fetchNoJid : Nat → Page :=
  fun _ => pageP1

/-- Claim C5 witness: the statement evaluated on the jid-carrying and
jid-less concrete traces. -/
theorem stream_start_registers_or_reports_unavailable_witness :
    (statusStr (pollFinished 0) = "FINISHED" ∧
     extract_job_id (fetch0Jid 0) = some "jid-1" ∧ "jid-1" ≠ "" ∧
     streamRetryLoop fetchNoJid 20 0 none = none) ∧
    ((run_query_stream_start "sess" (.ok (some "op-s")) pollFinished 1
         fetch0Jid regEmpty).1 = .ok "jid-1" ∧
     (run_query_stream_start "sess" (.ok (some "op-s")) pollFinished 1
         fetch0Jid regEmpty).2 "jid-1" =
       some { session := "sess", operation := "op-s", nextToken := 1 } ∧
     run_query_stream_start "sess" (.ok (some "op-s")) pollFinished 1
         fetchNoJid regEmpty = (.jobIdNotAvailable, regEmpty)) :=
  ⟨⟨by decide, by decide, by decide, by decide⟩,
   stream_start_registers_or_reports_unavailable "sess" "op-s"
     pollFinished 0 fetch0Jid fetchNoJid regEmpty regEmpty "jid-1"
     (by decide) (by decide) (by decide) (by decide)⟩

end FlinkMcp
